import Mathlib

/-!
Verification development for the n8n video worker service (`app.py`).

The service is a Flask application exposing a `/merge` endpoint that runs a
sequential media pipeline: validate the request fields, validate the variant
name against a static catalog, create a per-job working directory, download the
video and the audio asset, adjust the audio speed, apply a video filter, mux
the two streams, verify the output artifact, clean up the working directory and
answer with a JSON record.

The embedding below translates the module-level configuration, the path
construction (`os.path.join` with POSIX semantics), the four stage helpers
(`download_file`, `adjust_audio_speed`, `apply_video_filter`,
`merge_audio_video`) and the `/merge` request handler `process_variant` into
pure Lean functions.  External effects (HTTP fetches, subprocess execution,
filesystem queries) are supplied by oracles bundled in an `Env`, and the
handler additionally returns the ordered list of filesystem/process effects it
performed, so that claims about side effects and stage ordering can be stated.
-/

namespace VideoWorker

/-- One entry of the `VARIANTS` module-level dictionary in `app.py`. -/
structure VariantConfig where
  voice_id : String
  speed : ℚ
  filter : String
deriving DecidableEq, Repr

/-- The `VARIANTS` table of `app.py`, verbatim (floats read as exact rationals). -/
def VARIANTS : List (String × VariantConfig) :=
  [ ("pablo",   ⟨"OhisAd2u8Q6qSA4xXAAT", 1,         "none"⟩),
    ("josh",    ⟨"Rsz5u2Huh1hPlPr0oxRQ", 101 / 100, "eq=contrast=1.02"⟩),
    ("michael", ⟨"dfpTJ8gngbfXIon7bId3", 99 / 100,  "eq=saturation=1.015"⟩),
    ("ryan",    ⟨"4e32WqNVWRquDa1OcRYZ", 102 / 100, "unsharp=5:5:1.5"⟩),
    ("brad",    ⟨"f5HLTX707KIM4SzJYzSz", 98 / 100,  "eq=gamma=1.01"⟩) ]

/-- `UPLOAD_FOLDER` constant of `app.py`. -/
def UPLOAD_FOLDER : String := "/tmp/downloads"

/-- `TEMP_FOLDER` constant of `app.py`. -/
def TEMP_FOLDER : String := "/tmp/n8n_video_processing"

/-- Python's `b.startswith('/')`: the first character of `s` is a slash. -/
def startsWithSlash (s : String) : Bool :=
  match s.data with
  | [] => false
  | c :: _ => c == '/'

/-- Python's `a.endswith('/')`: the last character of `s` is a slash. -/
def endsWithSlash (s : String) : Bool :=
  match s.data.getLast? with
  | none => false
  | some c => c == '/'

/-- CPython `posixpath.join` for one extra component: if `b` is absolute it
replaces the accumulated path; otherwise a separator is inserted unless the
accumulated path is empty or already ends with one. -/
def posixJoin (a b : String) : String :=
  if startsWithSlash b then b
  else if a.data.isEmpty || endsWithSlash a then a ++ b
  else a ++ "/" ++ b

/-- `work_dir = os.path.join(TEMP_FOLDER, workflow_id, variant_name)`. -/
def work_dir (workflow_id variant_name : String) : String :=
  posixJoin (posixJoin TEMP_FOLDER workflow_id) variant_name

/-- `output_filename = f'{workflow_id}_{variant_name}.mp4'`. -/
def output_filename (workflow_id variant_name : String) : String :=
  workflow_id ++ "_" ++ variant_name ++ ".mp4"

/-- `output_file = os.path.join(UPLOAD_FOLDER, output_filename)`. -/
def output_file (workflow_id variant_name : String) : String :=
  posixJoin UPLOAD_FOLDER (output_filename workflow_id variant_name)

/-- `video_file = os.path.join(work_dir, 'source_video.mp4')`. -/
def video_file (workflow_id variant_name : String) : String :=
  posixJoin (work_dir workflow_id variant_name) "source_video.mp4"

/-- `audio_file = os.path.join(work_dir, 'source_audio.mp3')`. -/
def audio_file (workflow_id variant_name : String) : String :=
  posixJoin (work_dir workflow_id variant_name) "source_audio.mp3"

/-- `audio_speed_file = os.path.join(work_dir, 'audio_speed.mp3')`. -/
def audio_speed_file (workflow_id variant_name : String) : String :=
  posixJoin (work_dir workflow_id variant_name) "audio_speed.mp3"

/-- `video_filtered_file = os.path.join(work_dir, 'video_filtered.mp4')`. -/
def video_filtered_file (workflow_id variant_name : String) : String :=
  posixJoin (work_dir workflow_id variant_name) "video_filtered.mp4"

/-- Outcome of one `requests.get` call: a response with a status code, or a
connection-level failure, or a timeout. -/
inductive FetchEvent where
  | response (status_code : ℕ)
  | connectionError
  | timedOut
deriving DecidableEq, Repr

/-- `response.raise_for_status()` raises exactly for status codes 400–599. -/
def raise_for_status_raises (status_code : ℕ) : Bool :=
  decide (400 ≤ status_code ∧ status_code < 600)

/-- `download_file(url, dest_path)` of `app.py`, over a fetch oracle: any
raised exception (HTTP error status, connection failure, timeout) is caught
and turned into `false`; a non-raising response streams the body and returns
`true`. -/
def download_file (fetch : String → FetchEvent) (url : String) : Bool :=
  match fetch url with
  | .response s => !(raise_for_status_raises s)
  | .connectionError => false
  | .timedOut => false

/-- Outcome of one `subprocess.run` call: the process exited with a return
code, or the timeout expired, or some other exception was raised. -/
inductive ExecOutcome where
  | exited (returncode : Int)
  | timedOut
  | raised
deriving DecidableEq, Repr

/-- One `subprocess.run(cmd, ..., timeout=t)` invocation: the argument vector
and the timeout in seconds. -/
structure SubprocessCall where
  cmd : List String
  timeout : ℕ
deriving DecidableEq, Repr

/-- The ffmpeg argument vector built by `adjust_audio_speed` in `app.py`;
`speedStr` is the Python string formatting of the float `speed`. -/
def adjust_audio_speed_cmd (audio_path speedStr output_path : String) : List String :=
  ["ffmpeg", "-i", audio_path, "-af", "atempo=" ++ speedStr, "-y", output_path]

/-- `adjust_audio_speed(audio_path, speed, output_path)` of `app.py`: runs the
encoder with a 300-second timeout; a non-zero exit, a timeout or any other
exception yields `false`. -/
def adjust_audio_speed (exec : SubprocessCall → ExecOutcome)
    (audio_path speedStr output_path : String) : Bool :=
  match exec ⟨adjust_audio_speed_cmd audio_path speedStr output_path, 300⟩ with
  | .exited rc => rc == 0
  | .timedOut => false
  | .raised => false

/-- The ffmpeg argument vector built by `apply_video_filter` in `app.py`: the
sentinel filter spec "none" omits the `-vf` option, any other spec is passed
verbatim after `-vf`. -/
def apply_video_filter_cmd (video_path filter_spec output_path : String) : List String :=
  if filter_spec = "none" then
    ["ffmpeg", "-i", video_path,
     "-c:v", "libx264", "-crf", "23", "-preset", "fast", "-y", output_path]
  else
    ["ffmpeg", "-i", video_path, "-vf", filter_spec,
     "-c:v", "libx264", "-crf", "23", "-preset", "fast", "-y", output_path]

/-- `apply_video_filter(video_path, filter_spec, output_path)` of `app.py`:
runs the encoder with a 600-second timeout; a non-zero exit, a timeout or any
other exception yields `false`. -/
def apply_video_filter (exec : SubprocessCall → ExecOutcome)
    (video_path filter_spec output_path : String) : Bool :=
  match exec ⟨apply_video_filter_cmd video_path filter_spec output_path, 600⟩ with
  | .exited rc => rc == 0
  | .timedOut => false
  | .raised => false

/-- The ffmpeg argument vector built by `merge_audio_video` in `app.py`. -/
def merge_audio_video_cmd (video_path audio_path output_path : String) : List String :=
  ["ffmpeg", "-i", video_path, "-i", audio_path,
   "-c:v", "copy", "-c:a", "aac",
   "-map", "0:v:0", "-map", "1:a:0",
   "-shortest", "-y", output_path]

/-- `merge_audio_video(video_path, audio_path, output_path)` of `app.py`:
runs the encoder with a 600-second timeout; a non-zero exit, a timeout or any
other exception yields `false`. -/
def merge_audio_video (exec : SubprocessCall → ExecOutcome)
    (video_path audio_path output_path : String) : Bool :=
  match exec ⟨merge_audio_video_cmd video_path audio_path output_path, 600⟩ with
  | .exited rc => rc == 0
  | .timedOut => false
  | .raised => false

/-- Oracles for the external world observed by one `/merge` request. -/
structure Env where
  fetch : String → FetchEvent
  exec : SubprocessCall → ExecOutcome
  pathExists : String → Bool
  getsize : String → ℕ
  host : String
  now : String
  speedStr : ℚ → String

/-- The JSON success record built by `process_variant` (the constant
`status: "success"` field is implied by the constructor). -/
structure SuccessBody where
  variant : String
  output_file : String
  download_url : String
  file_size : ℕ
  timestamp : String
deriving DecidableEq, Repr

/-- HTTP response of the `/merge` handler: 200 with a success record, 400 with
an error message, or 500 with an error message from the catch-all handler. -/
inductive Response where
  | ok (body : SuccessBody)
  | clientError (msg : String)
  | serverError (msg : String)
deriving DecidableEq, Repr

/-- HTTP status code attached to each response shape in `process_variant`. -/
def Response.statusCode : Response → ℕ
  | .ok _ => 200
  | .clientError _ => 400
  | .serverError _ => 500

/-- Observable side effects of one `/merge` request, in program order. -/
inductive Effect where
  | makedirs (path : String)
  | httpGet (url : String) (dest : String)
  | runProcess (call : SubprocessCall)
  | checkExists (path : String)
  | rmtree (path : String)
deriving DecidableEq, Repr

/-- `true` exactly on subprocess (encoder) invocations. -/
def Effect.isRunProcess : Effect → Bool
  | .runProcess _ => true
  | _ => false

/-- A parsed JSON mapping body: association list from field name to value. -/
abbrev RequestData := List (String × String)

/-- The `required_fields` list of `process_variant`. -/
def required_fields : List String := ["video_url", "audio_url", "variant_name", "workflow_id"]

/-- `all(field in data for field in required_fields)`. -/
def has_required_fields (data : RequestData) : Bool :=
  required_fields.all fun f => (data.lookup f).isSome

/-- `data[k]` for a field known to be present (defaulting to `""` otherwise). -/
def req_field (data : RequestData) (k : String) : String :=
  (data.lookup k).getD ""

/-- The `/merge` handler `process_variant` of `app.py` restricted to a parsed
JSON mapping body, returning the response together with the ordered list of
filesystem and process effects it performed.  The branch structure mirrors the
source line by line: field validation, variant validation, workspace creation,
video download, audio download, speed adjustment, filtering, muxing, output
verification, size query, best-effort workspace removal, success record. -/
def process_variant (env : Env) (data : RequestData) : Response × List Effect :=
  if !(has_required_fields data) then
    (.clientError "Missing required fields", [])
  else
    let video_url := req_field data "video_url"
    let audio_url := req_field data "audio_url"
    let variant_name := req_field data "variant_name"
    let workflow_id := req_field data "workflow_id"
    match VARIANTS.lookup variant_name with
    | none => (.clientError ("Unknown variant: " ++ variant_name), [])
    | some variant_config =>
      let wd := work_dir workflow_id variant_name
      let vfile := video_file workflow_id variant_name
      let afile := audio_file workflow_id variant_name
      let asfile := audio_speed_file workflow_id variant_name
      let vffile := video_filtered_file workflow_id variant_name
      let ofname := output_filename workflow_id variant_name
      let ofile := output_file workflow_id variant_name
      if !(download_file env.fetch video_url) then
        (.clientError "Failed to download video",
         [.makedirs wd, .httpGet video_url vfile])
      else if !(download_file env.fetch audio_url) then
        (.clientError "Failed to download audio",
         [.makedirs wd, .httpGet video_url vfile, .httpGet audio_url afile])
      else
        let speedS := env.speedStr variant_config.speed
        let filter_spec := variant_config.filter
        let adjustCall : SubprocessCall :=
          ⟨adjust_audio_speed_cmd afile speedS asfile, 300⟩
        let filterCall : SubprocessCall :=
          ⟨apply_video_filter_cmd vfile filter_spec vffile, 600⟩
        let mergeCall : SubprocessCall :=
          ⟨merge_audio_video_cmd vffile asfile ofile, 600⟩
        if !(adjust_audio_speed env.exec afile speedS asfile) then
          (.clientError "Failed to adjust audio speed",
           [.makedirs wd, .httpGet video_url vfile, .httpGet audio_url afile,
            .runProcess adjustCall])
        else if !(apply_video_filter env.exec vfile filter_spec vffile) then
          (.clientError "Failed to apply video filter",
           [.makedirs wd, .httpGet video_url vfile, .httpGet audio_url afile,
            .runProcess adjustCall, .runProcess filterCall])
        else if !(merge_audio_video env.exec vffile asfile ofile) then
          (.clientError "Failed to merge audio and video",
           [.makedirs wd, .httpGet video_url vfile, .httpGet audio_url afile,
            .runProcess adjustCall, .runProcess filterCall, .runProcess mergeCall])
        else if !(env.pathExists ofile) then
          (.clientError "Output file not created",
           [.makedirs wd, .httpGet video_url vfile, .httpGet audio_url afile,
            .runProcess adjustCall, .runProcess filterCall, .runProcess mergeCall,
            .checkExists ofile])
        else
          let fsize := env.getsize ofile
          let durl := "https://" ++ env.host ++ "/download/" ++ ofname
          (.ok ⟨variant_name, ofile, durl, fsize, env.now⟩,
           [.makedirs wd, .httpGet video_url vfile, .httpGet audio_url afile,
            .runProcess adjustCall, .runProcess filterCall, .runProcess mergeCall,
            .checkExists ofile, .rmtree wd])

/-- A `/merge` request body as seen by the handler's outer `try`: either a
parsed JSON mapping, or a body whose parsing or field test raised an
exception (non-JSON payload, JSON `null`, ...), carrying the exception
message. -/
inductive RequestBody where
  | mapping (data : RequestData)
  | raises (msg : String)
deriving DecidableEq, Repr

/-- The full `/merge` endpoint including the catch-all `except` branch, which
turns any unanticipated exception into an HTTP 500 with the exception text. -/
def merge_endpoint (env : Env) (body : RequestBody) : Response × List Effect :=
  match body with
  | .mapping data => process_variant env data
  | .raises msg => (.serverError msg, [])

/-- The error messages produced by the anticipated pipeline failure branches of
`process_variant`, for a given requested variant name. -/
def pipeline_error_messages (variant_name : String) : List String :=
  ["Missing required fields",
   "Unknown variant: " ++ variant_name,
   "Failed to download video",
   "Failed to download audio",
   "Failed to adjust audio speed",
   "Failed to apply video filter",
   "Failed to merge audio and video",
   "Output file not created"]

/-! ### Concrete fixtures used by counterexamples and witnesses -/

/-- An environment in which every external interaction succeeds. -/
def allOkEnv : Env where
  fetch := fun _ => .response 200
  exec := fun _ => .exited 0
  pathExists := fun _ => true
  getsize := fun _ => 4242
  host := "worker.example"
  now := "2026-01-01T00:00:00"
  speedStr := fun _ => "1.0"

/-- Like `allOkEnv` but every HTTP fetch fails at the connection level. -/
def dlVideoFailEnv : Env :=
  { allOkEnv with fetch := fun _ => .connectionError }

/-- Like `allOkEnv` but the muxed artifact on disk has byte size zero. -/
def zeroSizeEnv : Env :=
  { allOkEnv with getsize := fun _ => 0 }

/-- A well-formed request body for variant `pablo` of workflow `wf1`. -/
def okData : RequestData :=
  [("video_url", "http://v"), ("audio_url", "http://a"),
   ("variant_name", "pablo"), ("workflow_id", "wf1")]

/-- A request body whose variant name is not a catalog key. -/
def unknownData : RequestData :=
  [("video_url", "http://v"), ("audio_url", "http://a"),
   ("variant_name", "zed"), ("workflow_id", "wf1")]

/-- A request body missing three of the four required fields. -/
def missingData : RequestData := [("video_url", "http://v")]

/-! ### Helper lemmas about association-list lookup -/

/-- A successful lookup key is one of the keys of the association list. -/
theorem lookup_mem_keys {α β : Type} [BEq α] [LawfulBEq α]
    {l : List (α × β)} {a : α} {b : β} (h : l.lookup a = some b) :
    a ∈ l.map Prod.fst := by
  induction l with
  | nil => simp [List.lookup] at h
  | cons p t ih =>
    rw [List.lookup] at h
    by_cases hab : a == p.1
    · simp [List.mem_map]
      exact Or.inl (eq_of_beq hab)
    · rw [Bool.eq_false_iff.mpr hab] at h
      simp only [List.map_cons, List.mem_cons]
      exact Or.inr (ih h)

/-- A successful lookup value is one of the values of the association list. -/
theorem lookup_mem_values {α β : Type} [BEq α]
    {l : List (α × β)} {a : α} {b : β} (h : l.lookup a = some b) :
    b ∈ l.map Prod.snd := by
  induction l with
  | nil => simp [List.lookup] at h
  | cons p t ih =>
    rw [List.lookup] at h
    by_cases hab : a == p.1
    · rw [hab] at h
      simp only [Option.some.injEq] at h
      simp [List.mem_map]
      exact Or.inl h.symm
    · rw [Bool.eq_false_iff.mpr hab] at h
      simp only [List.map_cons, List.mem_cons]
      exact Or.inr (ih h)

/-! ### Helper lemmas about the path model -/

/-- The data of the one-character separator string. -/
theorem slash_data : ("/" : String).data = ['/'] := rfl

/-- If a slash occurs nowhere in `s`, then `s` does not start with one. -/
theorem startsWithSlash_eq_false {s : String} (h : '/' ∉ s.data) :
    startsWithSlash s = false := by
  cases hd : s.data with
  | nil => simp [startsWithSlash, hd]
  | cons c rest =>
    have hc : c ≠ '/' := fun e => h (by rw [hd, e]; exact List.mem_cons_self '/' rest)
    simp [startsWithSlash, hd, hc]

/-- `endsWithSlash` computed from a last-element decomposition of the data. -/
theorem endsWithSlash_of_concat {s : String} {l : List Char} {c : Char}
    (h : s.data = l ++ [c]) : endsWithSlash s = (c == '/') := by
  have hlast : s.data.getLast? = some c := by
    rw [h, List.getLast?_append]
    rfl
  simp [endsWithSlash, hlast]

/-- If a slash occurs nowhere in `s`, then `s` does not end with one. -/
theorem endsWithSlash_eq_false {s : String} (h : '/' ∉ s.data) :
    endsWithSlash s = false := by
  rcases List.eq_nil_or_concat s.data with hd | ⟨l, c, hd⟩
  · simp [endsWithSlash, hd]
  · rw [List.concat_eq_append] at hd
    have hc : c ≠ '/' := fun e => h (by rw [hd, e]; exact List.mem_append_right l (by simp))
    rw [endsWithSlash_of_concat hd]
    simpa using hc

/-- Reduction of `posixJoin` when no alternative branch fires. -/
theorem posixJoin_data {a b : String} (hb : startsWithSlash b = false)
    (ha1 : a.data.isEmpty = false) (ha2 : endsWithSlash a = false) :
    (posixJoin a b).data = a.data ++ '/' :: b.data := by
  rw [posixJoin, hb, ha1, ha2]
  simp [String.data_append, slash_data]

/-- Splitting a list at a separator character that occurs in neither prefix:
the decomposition around the first occurrence of the separator is unique. -/
theorem sep_split {c : Char} :
    ∀ (u₁ u₂ : List Char) {t₁ t₂ : List Char}, c ∉ u₁ → c ∉ u₂ →
      u₁ ++ c :: t₁ = u₂ ++ c :: t₂ → u₁ = u₂ ∧ t₁ = t₂ := by
  intro u₁
  induction u₁ with
  | nil =>
    intro u₂ t₁ t₂ _ h₂ he
    cases u₂ with
    | nil => simpa using he
    | cons b bs =>
      simp only [List.nil_append, List.cons_append, List.cons.injEq] at he
      exact absurd (he.1 ▸ List.mem_cons_self b bs) h₂
  | cons a as ih =>
    intro u₂ t₁ t₂ h₁ h₂ he
    cases u₂ with
    | nil =>
      simp only [List.nil_append, List.cons_append, List.cons.injEq] at he
      exact absurd (he.1 ▸ List.mem_cons_self a as) h₁
    | cons b bs =>
      simp only [List.cons_append, List.cons.injEq] at he
      have h₁t : c ∉ as := fun hm => h₁ (List.mem_cons_of_mem a hm)
      have h₂t : c ∉ bs := fun hm => h₂ (List.mem_cons_of_mem b hm)
      obtain ⟨hu, ht⟩ := ih bs h₁t h₂t he.2
      exact ⟨by rw [he.1, hu], ht⟩

/-- Splitting a list at a separator character that occurs in neither suffix:
the decomposition around the last occurrence of the separator is unique. -/
theorem sep_split_last {c : Char} {u₁ u₂ t₁ t₂ : List Char}
    (h₁ : c ∉ t₁) (h₂ : c ∉ t₂)
    (he : u₁ ++ c :: t₁ = u₂ ++ c :: t₂) : u₁ = u₂ ∧ t₁ = t₂ := by
  have her : t₁.reverse ++ c :: u₁.reverse = t₂.reverse ++ c :: u₂.reverse := by
    have := congrArg List.reverse he
    simpa [List.reverse_append] using this
  have h₁r : c ∉ t₁.reverse := by simpa using h₁
  have h₂r : c ∉ t₂.reverse := by simpa using h₂
  obtain ⟨ht, hu⟩ := sep_split t₁.reverse t₂.reverse h₁r h₂r her
  exact ⟨List.reverse_inj.mp hu, List.reverse_inj.mp ht⟩

/-- Character-level facts about the five catalog keys: none contains a slash
or an underscore, and none is empty. -/
theorem variant_key_facts {v : String} (hv : v ∈ VARIANTS.map Prod.fst) :
    '/' ∉ v.data ∧ '_' ∉ v.data ∧ v.data ≠ [] := by
  simp only [VARIANTS, List.map_cons, List.map_nil, List.mem_cons,
    List.not_mem_nil, or_false] at hv
  rcases hv with h | h | h | h | h <;> subst h <;> exact ⟨by decide, by decide, by decide⟩

/-- Shape of the workspace directory path for a non-empty, slash-free
workflow id and a slash-free variant name. -/
theorem work_dir_data {w v : String} (hw : '/' ∉ w.data) (hwe : w.data ≠ [])
    (hv : '/' ∉ v.data) :
    (work_dir w v).data = TEMP_FOLDER.data ++ '/' :: (w.data ++ '/' :: v.data) := by
  have h₁ : (posixJoin TEMP_FOLDER w).data = TEMP_FOLDER.data ++ '/' :: w.data :=
    posixJoin_data (startsWithSlash_eq_false hw) (by decide) (by decide)
  rcases List.eq_nil_or_concat w.data with hd | ⟨l, c, hd⟩
  · exact absurd hd hwe
  · rw [List.concat_eq_append] at hd
    have hc : c ≠ '/' := fun e => hw (by rw [hd, e]; exact List.mem_append_right l (by simp))
    have h₂ : (posixJoin TEMP_FOLDER w).data = (TEMP_FOLDER.data ++ '/' :: l) ++ [c] := by
      rw [h₁, hd]; simp
    have hend : endsWithSlash (posixJoin TEMP_FOLDER w) = false := by
      rw [endsWithSlash_of_concat h₂]; simpa using hc
    have hempty : (posixJoin TEMP_FOLDER w).data.isEmpty = false := by
      rw [h₁]; rfl
    rw [work_dir, posixJoin_data (startsWithSlash_eq_false hv) hempty hend, h₁]
    simp

/-- Shape of the output artifact path for a slash-free workflow id. -/
theorem output_file_data {w : String} (hw : '/' ∉ w.data) (v : String) :
    (output_file w v).data =
      UPLOAD_FOLDER.data ++ '/' :: (w.data ++ '_' :: (v.data ++ ".mp4".data)) := by
  have hfn : (output_filename w v).data = w.data ++ '_' :: (v.data ++ ".mp4".data) := by
    rw [output_filename]
    simp [String.data_append]
  have hstart : startsWithSlash (output_filename w v) = false := by
    cases hd : w.data with
    | nil => simp [startsWithSlash, hfn, hd]
    | cons c rest =>
      have hc : c ≠ '/' := fun e => hw (by rw [hd, e]; exact List.mem_cons_self '/' rest)
      simp [startsWithSlash, hfn, hd, hc]
  rw [output_file, posixJoin_data hstart (by decide) (by decide), hfn]

/-! ### Claim C4 -/

/-- Claim C4 counterexample: with arbitrary, unvalidated workflow id strings,
two distinct (workflowId, variantName) tuples can collide.  The tuples
("a", "pablo") and ("a/", "pablo") are distinct yet produce the same
workspace path, and the tuples ("/tmp/downloads/y", "pablo") and
("y", "pablo") are distinct yet produce the same output artifact path
(`os.path.join` discards the base when the second component is absolute). -/
theorem claim_C4_counterexample :
    (("a" : String) == "a/") = false
  ∧ work_dir "a" "pablo" = work_dir "a/" "pablo"
  ∧ (("/tmp/downloads/y" : String) == "y") = false
  ∧ output_file "/tmp/downloads/y" "pablo" = output_file "y" "pablo" := by
  decide

/-- Claim C4 (amended): provided each workflow id is non-empty and contains no
path separator, the tuple (workflowId, variantName) uniquely determines both
the workspace path and the output artifact path — two distinct tuples have
distinct workspace paths, neither workspace path is an ancestor directory of
the other, and the output paths are distinct; identical tuples yield
identical paths (the backward directions of the two equivalences). -/
theorem claim_C4_theorem (w₁ v₁ w₂ v₂ : String)
    (hw₁ : '/' ∉ w₁.data) (hw₁e : w₁.data ≠ [])
    (hw₂ : '/' ∉ w₂.data) (hw₂e : w₂.data ≠ [])
    (hv₁ : v₁ ∈ VARIANTS.map Prod.fst) (hv₂ : v₂ ∈ VARIANTS.map Prod.fst) :
    (work_dir w₁ v₁ = work_dir w₂ v₂ ↔ (w₁ = w₂ ∧ v₁ = v₂))
  ∧ (output_file w₁ v₁ = output_file w₂ v₂ ↔ (w₁ = w₂ ∧ v₁ = v₂))
  ∧ ¬ ((work_dir w₁ v₁ ++ "/").data <+: (work_dir w₂ v₂).data) := by
  obtain ⟨hv₁s, hv₁u, hv₁e⟩ := variant_key_facts hv₁
  obtain ⟨hv₂s, hv₂u, hv₂e⟩ := variant_key_facts hv₂
  refine ⟨⟨?_, ?_⟩, ⟨?_, ?_⟩, ?_⟩
  · intro h
    have hd := congrArg String.data h
    rw [work_dir_data hw₁ hw₁e hv₁s, work_dir_data hw₂ hw₂e hv₂s] at hd
    have hd2 := List.append_cancel_left hd
    simp only [List.cons.injEq, true_and] at hd2
    obtain ⟨hw, hv⟩ := sep_split w₁.data w₂.data hw₁ hw₂ hd2
    exact ⟨String.ext hw, String.ext hv⟩
  · rintro ⟨rfl, rfl⟩; rfl
  · intro h
    have hd := congrArg String.data h
    rw [output_file_data hw₁ v₁, output_file_data hw₂ v₂] at hd
    have hd2 := List.append_cancel_left hd
    simp only [List.cons.injEq, true_and] at hd2
    have hu₁ : '_' ∉ v₁.data ++ ".mp4".data := by
      simp only [List.mem_append, not_or]
      exact ⟨hv₁u, by decide⟩
    have hu₂ : '_' ∉ v₂.data ++ ".mp4".data := by
      simp only [List.mem_append, not_or]
      exact ⟨hv₂u, by decide⟩
    obtain ⟨hw, hv⟩ := sep_split_last hu₁ hu₂ hd2
    exact ⟨String.ext hw, String.ext (List.append_cancel_right hv)⟩
  · rintro ⟨rfl, rfl⟩; rfl
  · intro h
    obtain ⟨t, ht⟩ := h
    rw [String.data_append, work_dir_data hw₁ hw₁e hv₁s,
      work_dir_data hw₂ hw₂e hv₂s, slash_data] at ht
    have ht2 : TEMP_FOLDER.data ++ '/' :: (w₁.data ++ '/' :: (v₁.data ++ '/' :: t)) =
        TEMP_FOLDER.data ++ '/' :: (w₂.data ++ '/' :: v₂.data) := by
      simpa [List.append_assoc] using ht
    have hd2 := List.append_cancel_left ht2
    simp only [List.cons.injEq, true_and] at hd2
    obtain ⟨hw, hv⟩ := sep_split w₁.data w₂.data hw₁ hw₂ hd2
    exact hv₂s (hv ▸ List.mem_append_right v₁.data (List.mem_cons_self '/' t))

/-- Claim C4 witness: the amended theorem applied to the concrete distinct
tuples ("wf1", "pablo") and ("wf2", "josh"). -/
theorem claim_C4_witness :
    (work_dir "wf1" "pablo" = work_dir "wf2" "josh" ↔
      (("wf1" : String) = "wf2" ∧ ("pablo" : String) = "josh"))
  ∧ (output_file "wf1" "pablo" = output_file "wf2" "josh" ↔
      (("wf1" : String) = "wf2" ∧ ("pablo" : String) = "josh"))
  ∧ ¬ ((work_dir "wf1" "pablo" ++ "/").data <+: (work_dir "wf2" "josh").data) :=
  claim_C4_theorem "wf1" "pablo" "wf2" "josh"
    (by decide) (by decide) (by decide) (by decide) (by decide) (by decide)

/-! ### Claim C1 -/

/-- Claim C1 counterexample: a `/merge` job whose video download fails creates
the workspace directory, returns the typed download failure, and never removes
the workspace — the `Failed(*)` paths perform no workspace release. -/
theorem claim_C1_counterexample :
    (process_variant dlVideoFailEnv okData).1 = Response.clientError "Failed to download video"
  ∧ (process_variant dlVideoFailEnv okData).2.contains
      (Effect.makedirs (work_dir "wf1" "pablo")) = true
  ∧ (process_variant dlVideoFailEnv okData).2.contains
      (Effect.rmtree (work_dir "wf1" "pablo")) = false := by
  decide

/-- Claim C1 (amended): for every `/merge` job that passes field and variant
validation, the workspace directory is created, and it is removed exactly when
the job succeeds — on every `Failed(*)` transition after workspace creation
the workspace is left in place (no best-effort release before the typed
failure is returned). -/
theorem claim_C1_theorem (env : Env) (data : RequestData)
    (hf : has_required_fields data = true)
    (hv : (VARIANTS.lookup (req_field data "variant_name")).isSome = true) :
    Effect.makedirs (work_dir (req_field data "workflow_id") (req_field data "variant_name"))
      ∈ (process_variant env data).2
  ∧ ((∃ sb, (process_variant env data).1 = Response.ok sb) ↔
      Effect.rmtree (work_dir (req_field data "workflow_id") (req_field data "variant_name"))
        ∈ (process_variant env data).2) := by
  obtain ⟨cfg, hcfg⟩ := Option.isSome_iff_exists.mp hv
  simp only [process_variant, hf, Bool.not_true, Bool.false_eq_true, if_false, hcfg]
  split_ifs <;> simp

/-- Claim C1 witness: the amended theorem applied to an all-success job. -/
theorem claim_C1_witness :
    has_required_fields okData = true
  ∧ (VARIANTS.lookup (req_field okData "variant_name")).isSome = true
  ∧ (Effect.makedirs (work_dir (req_field okData "workflow_id") (req_field okData "variant_name"))
       ∈ (process_variant allOkEnv okData).2
     ∧ ((∃ sb, (process_variant allOkEnv okData).1 = Response.ok sb) ↔
         Effect.rmtree (work_dir (req_field okData "workflow_id") (req_field okData "variant_name"))
           ∈ (process_variant allOkEnv okData).2)) :=
  ⟨by decide, by decide, claim_C1_theorem allOkEnv okData (by decide) (by decide)⟩

/-! ### Claim C2 -/

/-- Claim C2 counterexample: a run in which every stage succeeds but the muxed
artifact on disk has byte size zero passes the post-mux verification (only
existence is checked) and is reported as a success whose `file_size` is 0 —
the handler neither verifies non-emptiness nor guarantees `file_size > 0`. -/
theorem claim_C2_counterexample :
    (process_variant zeroSizeEnv okData).1 =
      Response.ok ⟨"pablo", "/tmp/downloads/wf1_pablo.mp4",
        "https://worker.example/download/wf1_pablo.mp4", 0, "2026-01-01T00:00:00"⟩ := by
  decide

/-- Claim C2 (amended): after the muxing stage succeeds the orchestrator
verifies only that the output artifact exists — absence yields the
`OutputMissing` failure; when it exists, the job succeeds and the reported
`file_size` equals the artifact's actual byte size on disk, which may be
zero (non-emptiness is not checked). -/
theorem claim_C2_theorem (env : Env) (data : RequestData) (cfg : VariantConfig)
    (hf : has_required_fields data = true)
    (hv : VARIANTS.lookup (req_field data "variant_name") = some cfg)
    (hdv : download_file env.fetch (req_field data "video_url") = true)
    (hda : download_file env.fetch (req_field data "audio_url") = true)
    (hadj : adjust_audio_speed env.exec
        (audio_file (req_field data "workflow_id") (req_field data "variant_name"))
        (env.speedStr cfg.speed)
        (audio_speed_file (req_field data "workflow_id") (req_field data "variant_name")) = true)
    (hfil : apply_video_filter env.exec
        (video_file (req_field data "workflow_id") (req_field data "variant_name"))
        cfg.filter
        (video_filtered_file (req_field data "workflow_id") (req_field data "variant_name")) = true)
    (hmrg : merge_audio_video env.exec
        (video_filtered_file (req_field data "workflow_id") (req_field data "variant_name"))
        (audio_speed_file (req_field data "workflow_id") (req_field data "variant_name"))
        (output_file (req_field data "workflow_id") (req_field data "variant_name")) = true) :
    (env.pathExists (output_file (req_field data "workflow_id") (req_field data "variant_name"))
        = false →
      (process_variant env data).1 = Response.clientError "Output file not created")
  ∧ (env.pathExists (output_file (req_field data "workflow_id") (req_field data "variant_name"))
        = true →
      (process_variant env data).1 = Response.ok
        ⟨req_field data "variant_name",
         output_file (req_field data "workflow_id") (req_field data "variant_name"),
         "https://" ++ env.host ++ "/download/"
           ++ output_filename (req_field data "workflow_id") (req_field data "variant_name"),
         env.getsize (output_file (req_field data "workflow_id") (req_field data "variant_name")),
         env.now⟩) := by
  constructor
  · intro hex
    simp [process_variant, hf, hv, hdv, hda, hadj, hfil, hmrg, hex]
  · intro hex
    simp [process_variant, hf, hv, hdv, hda, hadj, hfil, hmrg, hex]

/-- Claim C2 witness: the amended theorem applied to an all-success job whose
artifact exists with size 4242. -/
theorem claim_C2_witness :
    has_required_fields okData = true
  ∧ allOkEnv.pathExists (output_file "wf1" "pablo") = true
  ∧ ((allOkEnv.pathExists (output_file (req_field okData "workflow_id")
          (req_field okData "variant_name")) = false →
        (process_variant allOkEnv okData).1 = Response.clientError "Output file not created")
     ∧ (allOkEnv.pathExists (output_file (req_field okData "workflow_id")
          (req_field okData "variant_name")) = true →
        (process_variant allOkEnv okData).1 = Response.ok
          ⟨req_field okData "variant_name",
           output_file (req_field okData "workflow_id") (req_field okData "variant_name"),
           "https://" ++ allOkEnv.host ++ "/download/"
             ++ output_filename (req_field okData "workflow_id") (req_field okData "variant_name"),
           allOkEnv.getsize (output_file (req_field okData "workflow_id")
             (req_field okData "variant_name")),
           allOkEnv.now⟩)) :=
  ⟨by decide, by decide,
   claim_C2_theorem allOkEnv okData ⟨"OhisAd2u8Q6qSA4xXAAT", 1, "none"⟩
     (by decide) (by decide) (by decide) (by decide) (by decide) (by decide) (by decide)⟩

/-! ### Claim C3 -/

/-- Claim C3 counterexample: a `/merge` job whose variant name is absent from
the catalog terminates in the unknown-variant failure with an empty effect
trace — no workspace is acquired and neither asset is fetched, refuting the
claimed Fetching-before-Resolving order. -/
theorem claim_C3_counterexample :
    (process_variant allOkEnv unknownData).1 = Response.clientError "Unknown variant: zed"
  ∧ (process_variant allOkEnv unknownData).2 = [] := by
  decide

/-- Claim C3 (amended): the variant name is validated before the workspace is
acquired and before any fetch — an unknown variant terminates with no side
effects at all; for a known variant, the workspace is acquired first, then the
video is fetched, and the audio is fetched only after the video fetch
succeeds. -/
theorem claim_C3_theorem (env : Env) (data : RequestData)
    (hf : has_required_fields data = true) :
    ((VARIANTS.lookup (req_field data "variant_name")).isSome = false →
       (process_variant env data).1 =
         Response.clientError ("Unknown variant: " ++ req_field data "variant_name")
     ∧ (process_variant env data).2 = [])
  ∧ ((VARIANTS.lookup (req_field data "variant_name")).isSome = true →
       (process_variant env data).2.take 2 =
         [Effect.makedirs (work_dir (req_field data "workflow_id") (req_field data "variant_name")),
          Effect.httpGet (req_field data "video_url")
            (video_file (req_field data "workflow_id") (req_field data "variant_name"))]
     ∧ (download_file env.fetch (req_field data "video_url") = true →
         (process_variant env data).2.take 3 =
           [Effect.makedirs (work_dir (req_field data "workflow_id") (req_field data "variant_name")),
            Effect.httpGet (req_field data "video_url")
              (video_file (req_field data "workflow_id") (req_field data "variant_name")),
            Effect.httpGet (req_field data "audio_url")
              (audio_file (req_field data "workflow_id") (req_field data "variant_name"))])) := by
  constructor
  · intro hnone
    cases hcase : VARIANTS.lookup (req_field data "variant_name") with
    | none => simp [process_variant, hf, hcase]
    | some cfg => rw [hcase] at hnone; simp at hnone
  · intro hsome
    obtain ⟨cfg, hcfg⟩ := Option.isSome_iff_exists.mp hsome
    simp only [process_variant, hf, Bool.not_true, Bool.false_eq_true, if_false, hcfg]
    constructor
    · split_ifs <;> simp
    · intro hdv
      simp only [hdv, Bool.not_true, Bool.false_eq_true, if_false]
      split_ifs <;> simp

/-- Claim C3 witness: the amended theorem applied to an all-success job. -/
theorem claim_C3_witness :
    has_required_fields okData = true
  ∧ (VARIANTS.lookup (req_field okData "variant_name")).isSome = true
  ∧ ((process_variant allOkEnv okData).2.take 2 =
       [Effect.makedirs (work_dir (req_field okData "workflow_id") (req_field okData "variant_name")),
        Effect.httpGet (req_field okData "video_url")
          (video_file (req_field okData "workflow_id") (req_field okData "variant_name"))]
     ∧ (download_file allOkEnv.fetch (req_field okData "video_url") = true →
         (process_variant allOkEnv okData).2.take 3 =
           [Effect.makedirs (work_dir (req_field okData "workflow_id") (req_field okData "variant_name")),
            Effect.httpGet (req_field okData "video_url")
              (video_file (req_field okData "workflow_id") (req_field okData "variant_name")),
            Effect.httpGet (req_field okData "audio_url")
              (audio_file (req_field okData "workflow_id") (req_field okData "variant_name"))])) :=
  ⟨by decide, by decide,
   (claim_C3_theorem allOkEnv okData (by decide)).2 (by decide)⟩

/-! ### Claim C5 -/

/-- Every `/merge` run on a parsed mapping body ends either in a success
record or in one of the anticipated, classified pipeline error messages. -/
theorem process_variant_cases (env : Env) (data : RequestData) :
    (∃ sb, (process_variant env data).1 = Response.ok sb)
  ∨ (∃ m, (process_variant env data).1 = Response.clientError m
        ∧ m ∈ pipeline_error_messages (req_field data "variant_name")) := by
  by_cases hf : has_required_fields data
  · cases hcase : VARIANTS.lookup (req_field data "variant_name") with
    | none =>
      right
      simp [process_variant, hf, hcase, pipeline_error_messages]
    | some cfg =>
      simp only [process_variant, hf, Bool.not_true, Bool.false_eq_true, if_false, hcase]
      split_ifs <;> simp [pipeline_error_messages]
  · right
    simp only [Bool.not_eq_true] at hf
    simp [process_variant, hf, pipeline_error_messages]

/-- Claim C5: each anticipated pipeline failure kind is returned as HTTP 400
with an `error` body drawn from the classified messages, HTTP 500 arises
exactly from the catch-all handler for unclassified errors, and success is
HTTP 200 with the documented success record. -/
theorem claim_C5_theorem (env : Env) (body : RequestBody) :
    ((merge_endpoint env body).1.statusCode = 500 ↔ ∃ m, body = RequestBody.raises m)
  ∧ (∀ data, body = RequestBody.mapping data →
      ((merge_endpoint env body).1.statusCode = 200
        ∧ ∃ sb, (merge_endpoint env body).1 = Response.ok sb)
    ∨ ((merge_endpoint env body).1.statusCode = 400
        ∧ ∃ m, (merge_endpoint env body).1 = Response.clientError m
             ∧ m ∈ pipeline_error_messages (req_field data "variant_name"))) := by
  cases body with
  | raises m =>
    constructor
    · simp [merge_endpoint, Response.statusCode]
    · intro data h
      simp at h
  | mapping d =>
    constructor
    · constructor
      · intro h500
        rcases process_variant_cases env d with ⟨sb, hsb⟩ | ⟨m, hm, _⟩
        · simp [merge_endpoint, hsb, Response.statusCode] at h500
        · simp [merge_endpoint, hm, Response.statusCode] at h500
      · rintro ⟨m, hm⟩
        simp at hm
    · intro data h
      injection h with hd
      subst hd
      rcases process_variant_cases env d with ⟨sb, hsb⟩ | ⟨m, hm, hmem⟩
      · exact Or.inl ⟨by simp [merge_endpoint, hsb, Response.statusCode],
          sb, by simp [merge_endpoint, hsb]⟩
      · exact Or.inr ⟨by simp [merge_endpoint, hm, Response.statusCode],
          m, by simp [merge_endpoint, hm], hmem⟩

/-- Claim C5 witness: the theorem applied to a concrete body whose variant
name is unknown, together with the resulting 400 classification. -/
theorem claim_C5_witness :
    ((merge_endpoint allOkEnv (RequestBody.mapping unknownData)).1.statusCode = 500 ↔
       ∃ m, RequestBody.mapping unknownData = RequestBody.raises m)
  ∧ (∀ data, RequestBody.mapping unknownData = RequestBody.mapping data →
      ((merge_endpoint allOkEnv (RequestBody.mapping unknownData)).1.statusCode = 200
        ∧ ∃ sb, (merge_endpoint allOkEnv (RequestBody.mapping unknownData)).1 = Response.ok sb)
    ∨ ((merge_endpoint allOkEnv (RequestBody.mapping unknownData)).1.statusCode = 400
        ∧ ∃ m, (merge_endpoint allOkEnv (RequestBody.mapping unknownData)).1
                 = Response.clientError m
             ∧ m ∈ pipeline_error_messages (req_field data "variant_name"))) :=
  claim_C5_theorem allOkEnv (RequestBody.mapping unknownData)

/-! ### Claim C6 -/

/-- Claim C6: the muxer invocation copies the video stream (`-c:v copy`),
re-encodes audio to aac (`-c:a aac`), maps the first video stream of the
first input and the first audio stream of the second (`-map 0:v:0`,
`-map 1:a:0`, and no other mappings), truncates to the shorter stream
(`-shortest`), runs with a 600-second timeout, and succeeds exactly when the
encoder exits with status 0 — a non-zero exit, a timeout or any other raised
exception yields the merge failure. -/
theorem claim_C6_theorem (video_path audio_path output_path : String)
    (exec : SubprocessCall → ExecOutcome) :
    merge_audio_video_cmd video_path audio_path output_path =
      ["ffmpeg", "-i", video_path, "-i", audio_path, "-c:v", "copy", "-c:a", "aac",
       "-map", "0:v:0", "-map", "1:a:0", "-shortest", "-y", output_path]
  ∧ (merge_audio_video exec video_path audio_path output_path = true ↔
      exec ⟨merge_audio_video_cmd video_path audio_path output_path, 600⟩
        = ExecOutcome.exited 0) := by
  refine ⟨rfl, ?_⟩
  rw [merge_audio_video]
  cases h : exec ⟨merge_audio_video_cmd video_path audio_path output_path, 600⟩ <;> simp

/-- Claim C6 witness: the theorem applied to concrete paths and an encoder
oracle that exits successfully. -/
theorem claim_C6_witness :
    merge_audio_video_cmd "v.mp4" "a.mp3" "o.mp4" =
      ["ffmpeg", "-i", "v.mp4", "-i", "a.mp3", "-c:v", "copy", "-c:a", "aac",
       "-map", "0:v:0", "-map", "1:a:0", "-shortest", "-y", "o.mp4"]
  ∧ (merge_audio_video (fun _ => ExecOutcome.exited 0) "v.mp4" "a.mp3" "o.mp4" = true ↔
      (fun _ => ExecOutcome.exited 0) (⟨merge_audio_video_cmd "v.mp4" "a.mp3" "o.mp4", 600⟩
        : SubprocessCall) = ExecOutcome.exited 0) :=
  claim_C6_theorem "v.mp4" "a.mp3" "o.mp4" (fun _ => ExecOutcome.exited 0)

/-! ### Claim C7 -/

/-- Claim C7: with the literal sentinel "none" the filter stage re-encodes
with libx264 at crf 23 and preset fast with no filter argument; with any
other filter spec the same codec and quality settings are used and the spec
is passed verbatim after `-vf`; the stage runs with a 600-second timeout and
succeeds exactly when the encoder exits 0 — non-zero exit, timeout or any
other raised exception yields the filter failure. -/
theorem claim_C7_theorem (video_path filter_spec output_path : String)
    (exec : SubprocessCall → ExecOutcome) (h : filter_spec ≠ "none") :
    apply_video_filter_cmd video_path "none" output_path =
      ["ffmpeg", "-i", video_path,
       "-c:v", "libx264", "-crf", "23", "-preset", "fast", "-y", output_path]
  ∧ apply_video_filter_cmd video_path filter_spec output_path =
      ["ffmpeg", "-i", video_path, "-vf", filter_spec,
       "-c:v", "libx264", "-crf", "23", "-preset", "fast", "-y", output_path]
  ∧ (apply_video_filter exec video_path filter_spec output_path = true ↔
      exec ⟨apply_video_filter_cmd video_path filter_spec output_path, 600⟩
        = ExecOutcome.exited 0)
  ∧ (apply_video_filter exec video_path "none" output_path = true ↔
      exec ⟨apply_video_filter_cmd video_path "none" output_path, 600⟩
        = ExecOutcome.exited 0) := by
  refine ⟨by simp [apply_video_filter_cmd], by simp [apply_video_filter_cmd, h], ?_, ?_⟩
  · rw [apply_video_filter]
    cases hc : exec ⟨apply_video_filter_cmd video_path filter_spec output_path, 600⟩ <;> simp
  · rw [apply_video_filter]
    cases hc : exec ⟨apply_video_filter_cmd video_path "none" output_path, 600⟩ <;> simp

/-- Claim C7 witness: the theorem applied to the concrete catalog filter
expression "eq=gamma=1.01", which differs from the sentinel. -/
theorem claim_C7_witness :
    ("eq=gamma=1.01" : String) ≠ "none"
  ∧ (apply_video_filter_cmd "v.mp4" "none" "o.mp4" =
      ["ffmpeg", "-i", "v.mp4",
       "-c:v", "libx264", "-crf", "23", "-preset", "fast", "-y", "o.mp4"]
  ∧ apply_video_filter_cmd "v.mp4" "eq=gamma=1.01" "o.mp4" =
      ["ffmpeg", "-i", "v.mp4", "-vf", "eq=gamma=1.01",
       "-c:v", "libx264", "-crf", "23", "-preset", "fast", "-y", "o.mp4"]
  ∧ (apply_video_filter (fun _ => ExecOutcome.exited 0) "v.mp4" "eq=gamma=1.01" "o.mp4" = true ↔
      (fun _ => ExecOutcome.exited 0)
        (⟨apply_video_filter_cmd "v.mp4" "eq=gamma=1.01" "o.mp4", 600⟩ : SubprocessCall)
        = ExecOutcome.exited 0)
  ∧ (apply_video_filter (fun _ => ExecOutcome.exited 0) "v.mp4" "none" "o.mp4" = true ↔
      (fun _ => ExecOutcome.exited 0)
        (⟨apply_video_filter_cmd "v.mp4" "none" "o.mp4", 600⟩ : SubprocessCall)
        = ExecOutcome.exited 0)) :=
  ⟨by decide,
   claim_C7_theorem "v.mp4" "eq=gamma=1.01" "o.mp4" (fun _ => ExecOutcome.exited 0) (by decide)⟩

/-! ### Claim C8 -/

/-- Claim C8: every fetch failure — an HTTP error status (400–599), a
connection failure, or a timeout — makes `download_file` report failure
identically, and a `/merge` job whose video or audio fetch fails terminates
with the corresponding download failure without invoking any encoder
process. -/
theorem claim_C8_theorem (env : Env) (data : RequestData) (url : String)
    (hf : has_required_fields data = true)
    (hv : (VARIANTS.lookup (req_field data "variant_name")).isSome = true) :
    (∀ s, 400 ≤ s → s < 600 → env.fetch url = FetchEvent.response s →
       download_file env.fetch url = false)
  ∧ (env.fetch url = FetchEvent.connectionError → download_file env.fetch url = false)
  ∧ (env.fetch url = FetchEvent.timedOut → download_file env.fetch url = false)
  ∧ (download_file env.fetch (req_field data "video_url") = false →
       (process_variant env data).1 = Response.clientError "Failed to download video"
     ∧ (process_variant env data).2.any Effect.isRunProcess = false)
  ∧ (download_file env.fetch (req_field data "video_url") = true →
     download_file env.fetch (req_field data "audio_url") = false →
       (process_variant env data).1 = Response.clientError "Failed to download audio"
     ∧ (process_variant env data).2.any Effect.isRunProcess = false) := by
  obtain ⟨cfg, hcfg⟩ := Option.isSome_iff_exists.mp hv
  refine ⟨?_, ?_, ?_, ?_, ?_⟩
  · intro s h4 h6 hresp
    simp [download_file, hresp, raise_for_status_raises, h4, h6]
  · intro hc
    simp [download_file, hc]
  · intro hc
    simp [download_file, hc]
  · intro hdv
    simp [process_variant, hf, hcfg, hdv, Effect.isRunProcess]
  · intro hdv hda
    simp [process_variant, hf, hcfg, hdv, hda, Effect.isRunProcess]

/-- Claim C8 witness: the theorem applied to an environment whose every fetch
fails at the connection level. -/
theorem claim_C8_witness :
    has_required_fields okData = true
  ∧ ((∀ s, 400 ≤ s → s < 600 → dlVideoFailEnv.fetch "http://x" = FetchEvent.response s →
        download_file dlVideoFailEnv.fetch "http://x" = false)
  ∧ (dlVideoFailEnv.fetch "http://x" = FetchEvent.connectionError →
       download_file dlVideoFailEnv.fetch "http://x" = false)
  ∧ (dlVideoFailEnv.fetch "http://x" = FetchEvent.timedOut →
       download_file dlVideoFailEnv.fetch "http://x" = false)
  ∧ (download_file dlVideoFailEnv.fetch (req_field okData "video_url") = false →
       (process_variant dlVideoFailEnv okData).1
         = Response.clientError "Failed to download video"
     ∧ (process_variant dlVideoFailEnv okData).2.any Effect.isRunProcess = false)
  ∧ (download_file dlVideoFailEnv.fetch (req_field okData "video_url") = true →
     download_file dlVideoFailEnv.fetch (req_field okData "audio_url") = false →
       (process_variant dlVideoFailEnv okData).1
         = Response.clientError "Failed to download audio"
     ∧ (process_variant dlVideoFailEnv okData).2.any Effect.isRunProcess = false)) :=
  ⟨by decide, claim_C8_theorem dlVideoFailEnv okData "http://x" (by decide) (by decide)⟩

/-! ### Claim C9 -/

/-- Claim C9: every variant profile resolvable from the catalog has a speed
multiplier inside the encoder-supported tempo range [0.5, 2.0], and indeed
inside [0.98, 1.02]. -/
theorem claim_C9_theorem (name : String) (cfg : VariantConfig)
    (h : VARIANTS.lookup name = some cfg) :
    1 / 2 ≤ cfg.speed ∧ cfg.speed ≤ 2 ∧ 98 / 100 ≤ cfg.speed ∧ cfg.speed ≤ 102 / 100 := by
  have hmem := lookup_mem_values h
  simp only [VARIANTS, List.map_cons, List.map_nil, List.mem_cons,
    List.not_mem_nil, or_false] at hmem
  rcases hmem with h' | h' | h' | h' | h' <;> subst h' <;> constructor <;> norm_num

/-- Claim C9 witness: the theorem applied to the catalog entry "pablo". -/
theorem claim_C9_witness :
    VARIANTS.lookup "pablo" = some ⟨"OhisAd2u8Q6qSA4xXAAT", 1, "none"⟩
  ∧ (1 / 2 ≤ (1 : ℚ) ∧ (1 : ℚ) ≤ 2 ∧ 98 / 100 ≤ (1 : ℚ) ∧ (1 : ℚ) ≤ 102 / 100) :=
  ⟨rfl, claim_C9_theorem "pablo" ⟨"OhisAd2u8Q6qSA4xXAAT", 1, "none"⟩ rfl⟩

/-! ### Claim C10 -/

/-- Claim C10: a mapping body missing a required field, or naming an unknown
variant, is answered with HTTP 400 and produces no side effect at all — no
workspace creation, no download, no encoder invocation (the effect trace is
empty). -/
theorem claim_C10_theorem (env : Env) (data : RequestData) :
    (has_required_fields data = false →
       process_variant env data = (Response.clientError "Missing required fields", [])
     ∧ (process_variant env data).1.statusCode = 400)
  ∧ (has_required_fields data = true →
     (VARIANTS.lookup (req_field data "variant_name")).isSome = false →
       process_variant env data =
         (Response.clientError ("Unknown variant: " ++ req_field data "variant_name"), [])
     ∧ (process_variant env data).1.statusCode = 400) := by
  constructor
  · intro hf
    simp [process_variant, hf, Response.statusCode]
  · intro hf hnone
    cases hcase : VARIANTS.lookup (req_field data "variant_name") with
    | none => simp [process_variant, hf, hcase, Response.statusCode]
    | some cfg => rw [hcase] at hnone; simp at hnone

/-- Claim C10 witness: the theorem applied to a body missing three required
fields. -/
theorem claim_C10_witness :
    has_required_fields missingData = false
  ∧ process_variant allOkEnv missingData = (Response.clientError "Missing required fields", []) :=
  ⟨by decide, ((claim_C10_theorem allOkEnv missingData).1 (by decide)).1⟩

end VideoWorker
